import Mathlib

/-!
# TalosConfig API types (api/v1alpha3/talosconfig_types.go)

A shallow embedding of the `v1alpha3` API types of the Talos bootstrap
provider and of the two accessor methods defined on `TalosConfig`, followed by
a model of the configuration synthesis engine described in the specification.

Conventions of the embedding:

* a Go `string` is a Lean `String`; the zero value is `""`;
* a Go slice `[]T` is a `List T`; the nil slice and the empty slice are both
  `[]` (they have the same length and the same elements);
* a Go pointer field `*T` is an `Option T`; `nil` is `none`;
* `int64` fields are `Int` (no arithmetic is performed on them here);
* a method with a pointer receiver is a function that takes the receiver's
  value before the call and returns the receiver's value after the call
  (together with the method's result, when it has one).
-/

set_option autoImplicit false

namespace v1alpha3

/-! ## Types of the Kubernetes libraries used by the declarations -/

/-- The type `corev1.SecretKeySelector`: a secret name, a key in that secret
and the optional flag. -/
structure SecretKeySelector where
  Name : String
  Key : String
  Optional : Option Bool
  deriving DecidableEq, Repr

/-- The type `metav1.TypeMeta`. -/
structure TypeMeta where
  Kind : String
  APIVersion : String
  deriving DecidableEq, Repr

/-- The type `metav1.OwnerReference`. -/
structure OwnerReference where
  APIVersion : String
  Kind : String
  Name : String
  UID : String
  Controller : Option Bool
  BlockOwnerDeletion : Option Bool
  deriving DecidableEq, Repr

/-- The type `metav1.ObjectMeta` (timestamps as seconds, maps as association
lists, the server-side `ManagedFields` bookkeeping left out). -/
structure ObjectMeta where
  Name : String
  GenerateName : String
  Namespace : String
  SelfLink : String
  UID : String
  ResourceVersion : String
  Generation : Int
  CreationTimestamp : Int
  DeletionTimestamp : Option Int
  DeletionGracePeriodSeconds : Option Int
  Labels : List (String × String)
  Annotations : List (String × String)
  OwnerReferences : List OwnerReference
  Finalizers : List String
  deriving DecidableEq, Repr

/-- The type `metav1.Condition` (its field `Type` is written `Type_`, as `Type`
is reserved). -/
structure Condition where
  Type_ : String
  Status : String
  ObservedGeneration : Int
  LastTransitionTime : Int
  Reason : String
  Message : String
  deriving DecidableEq, Repr

/-! ## Declarations of talosconfig_types.go -/

/-- ConfigFinalizer allows us to clean up resources before deletion. -/
def ConfigFinalizer : String := "talosconfig.bootstrap.cluster.x-k8s.io"

/-- Modelled from the spec: the element type `ConfigPatches` of
`TalosConfigSpec.ConfigPatches` is declared in another file of the package;
the specification describes a fine-grained patch as "a single-operation edit
addressed by path (add/replace/remove)", with a value for the operations that
carry one. -/
structure ConfigPatches where
  Op : String
  Path : String
  Value : String
  deriving DecidableEq, Repr

/-- The struct `VariableValueSource`. -/
structure VariableValueSource where
  SecretKeyRef : Option SecretKeySelector
  deriving DecidableEq, Repr

/-- Variable is a definition of a variable to be exposed to the config
template. -/
structure Variable where
  Name : String
  Value : String
  ValueFrom : Option VariableValueSource
  deriving DecidableEq, Repr

/-- HostnameSource is the definition of hostname source
(`type HostnameSource string`). -/
abbrev HostnameSource := String

/-- HostnameSourceMachineName sets the hostname in the generated configuration
to the machine name. -/
def HostnameSourceMachineName : HostnameSource := "MachineName"

/-- HostnameSourceInfrastructureName sets the hostname in the generated
configuration to the name of the machine's infrastructure. -/
def HostnameSourceInfrastructureName : HostnameSource := "InfrastructureName"

/-- HostnameSpec defines the hostname source. -/
structure HostnameSpec where
  Source : HostnameSource
  deriving DecidableEq, Repr

/-- TalosConfigSpec defines the desired state of TalosConfig. -/
structure TalosConfigSpec where
  TalosVersion : String
  GenerateType : String
  Data : String
  ConfigPatches : List ConfigPatches
  StrategicPatches : List String
  Hostname : HostnameSpec
  Variables : List Variable
  deriving DecidableEq, Repr

/-- TalosConfigStatus defines the observed state of TalosConfig. -/
structure TalosConfigStatus where
  Ready : Bool
  DataSecretName : Option String
  TalosConfig : String
  FailureReason : String
  FailureMessage : String
  ObservedGeneration : Int
  Conditions : List Condition
  deriving DecidableEq, Repr

/-- TalosConfig is the Schema for the talosconfigs API. The two embedded
structs of the Go declaration are the fields `TypeMeta` and `ObjectMeta`. -/
structure TalosConfig where
  TypeMeta : TypeMeta
  ObjectMeta : ObjectMeta
  Spec : TalosConfigSpec
  Status : TalosConfigStatus
  deriving DecidableEq, Repr

/-- The zero value of `metav1.ObjectMeta`. -/
def ObjectMeta.zero : ObjectMeta :=
  { Name := "", GenerateName := "", Namespace := "", SelfLink := "", UID := "",
    ResourceVersion := "", Generation := 0, CreationTimestamp := 0,
    DeletionTimestamp := none, DeletionGracePeriodSeconds := none,
    Labels := [], Annotations := [], OwnerReferences := [], Finalizers := [] }

/-- The zero value of `TalosConfigSpec`. -/
def TalosConfigSpec.zero : TalosConfigSpec :=
  { TalosVersion := "", GenerateType := "", Data := "", ConfigPatches := [],
    StrategicPatches := [], Hostname := { Source := "" }, Variables := [] }

/-- The zero value of `TalosConfigStatus`. -/
def TalosConfigStatus.zero : TalosConfigStatus :=
  { Ready := false, DataSecretName := none, TalosConfig := "", FailureReason := "",
    FailureMessage := "", ObservedGeneration := 0, Conditions := [] }

/-- The zero value of `TalosConfig` (`TalosConfig{}`). -/
def TalosConfig.zero : TalosConfig :=
  { TypeMeta := { Kind := "", APIVersion := "" }, ObjectMeta := ObjectMeta.zero,
    Spec := TalosConfigSpec.zero, Status := TalosConfigStatus.zero }

/-- GetConditions returns the set of conditions for this object:
`return c.Status.Conditions`. The second component is the receiver after the
call; the body contains no assignment. -/
def TalosConfig.GetConditions (c : TalosConfig) : List Condition × TalosConfig :=
  (c.Status.Conditions, c)

/-- SetConditions sets the conditions on this object:
`c.Status.Conditions = conditions`. The result is the receiver after the
call. -/
def TalosConfig.SetConditions (c : TalosConfig) (conditions : List Condition) : TalosConfig :=
  { c with Status := { c.Status with Conditions := conditions } }

/-! ## The variable-name invariant of the specification -/

/-- Pairwise distinctness of the declared variable names of an intent: no two
entries of `Spec.Variables` share the same `Name`. -/
def variableNamesDistinct (s : TalosConfigSpec) : Prop :=
  s.Variables.Pairwise (fun a b => a.Name ≠ b.Name)

/-- A specification with two variable declarations of the same name,
`variables: [{name: "region", value: "eu"}, {name: "region", value: "us"}]`. -/
def repeatedNameSpec : TalosConfigSpec :=
  { TalosConfigSpec.zero with
    GenerateType := "worker"
    Variables := [{ Name := "region", Value := "eu", ValueFrom := none },
                  { Name := "region", Value := "us", ValueFrom := none }] }

/-- A specification with the literal variable `region` and the variable
`token` read from the entry `token` of the secret `creds`. -/
def regionTokenSpec : TalosConfigSpec :=
  { TalosConfigSpec.zero with
    GenerateType := "worker"
    Variables := [{ Name := "region", Value := "eu", ValueFrom := none },
                  { Name := "token", Value := "",
                    ValueFrom := some { SecretKeyRef := some { Name := "creds", Key := "token",
                                                               Optional := none } } }] }

/-! ## The configuration synthesis engine

The pipeline itself (variable resolver, template renderer, base generator,
patch pipeline, hostname injector, orchestrator) is not part of
talosconfig_types.go. The definitions of this section follow sections 3 to 7
of the specification. The stages whose results the specification leaves to a
convention outside the engine (placeholder syntax, document serialization,
skeleton shape, patch and merge semantics) are fields of `Engine`; the external
collaborators of section 6 are fields of `Collaborators`. -/

/-- Modelled from the spec: the error taxonomy of section 7. The renderer's
failure on an undeclared placeholder (section 4.2) and a raw document that does
not parse carry no name of their own in the taxonomy and are the last two
constructors. -/
inductive SynthesisError where
  | InvalidIntentError
  | UnsupportedVersionError
  | VariableResolutionError (name : String)
  | InvalidPatchError (index : Nat)
  | PatchTargetNotFoundError (index : Nat) (path : String)
  | InvalidHostnameSourceError
  | DependencyNotReadyError
  | UnresolvedPlaceholderError
  | InvalidDocumentError
  deriving DecidableEq, Repr

/-- Modelled from the spec: section 7 splits the taxonomy into the retryable
`DependencyNotReadyError` and the non-retryable rest. -/
def SynthesisError.retryable : SynthesisError → Bool
  | .DependencyNotReadyError => true
  | _ => false

/-- Modelled from the spec: a node of the "structured (tree-shaped)
document" of section 3: a scalar, a mapping from keys to nodes, or a sequence
of nodes. -/
inductive Node where
  | scalar (value : String)
  | mapping (entries : List (String × Node))
  | sequence (items : List Node)

/-- Modelled from the spec: the ConfigDocument of section 3, a mapping at the
root; the hostname field of section 4.5 is the root key `hostname`. -/
structure ConfigDocument where
  root : List (String × Node)

/-- Modelled from the spec: the "empty/placeholder document" that section 4.3
gives for the mode `none`. -/
def ConfigDocument.empty : ConfigDocument := { root := [] }

/-- Lookup of the first entry with the given key. -/
def lookupKey (k : String) : List (String × Node) → Option Node
  | [] => none
  | (k', v) :: rest => if k' = k then some v else lookupKey k rest

/-- Replacement of the value of the first entry with the given key, or
insertion of a new entry at the end when the key is absent. -/
def upsertKey (k : String) (v : Node) : List (String × Node) → List (String × Node)
  | [] => [(k, v)]
  | (k', v') :: rest => if k' = k then (k, v) :: rest else (k', v') :: upsertKey k v rest

/-- Modelled from the spec: the hostname field of a document, when it is set
to a scalar. -/
def ConfigDocument.hostname (d : ConfigDocument) : Option String :=
  match lookupKey "hostname" d.root with
  | some (.scalar n) => some n
  | _ => none

/-- Modelled from the spec: "document with hostname field set" (section
4.5). -/
def ConfigDocument.setHostname (d : ConfigDocument) (n : String) : ConfigDocument :=
  { root := upsertKey "hostname" (.scalar n) d.root }

/-- Modelled from the spec: ResolvedVariables of section 3, the mapping from
variable name to resolved value, in declaration order. -/
abbrev ResolvedVariables := List (String × String)

/-- Modelled from the spec: the generation modes `none|init|controlplane|worker`
of section 3. -/
inductive GenerationMode where
  | none
  | init
  | controlplane
  | worker
  deriving DecidableEq, Repr

/-- Modelled from the spec: reading of the `GenerateType` string as one of the
four modes of section 3. -/
def parseMode (g : String) : Option GenerationMode :=
  if g = "none" then some .none
  else if g = "init" then some .init
  else if g = "controlplane" then some .controlplane
  else if g = "worker" then some .worker
  else Option.none

/-- Modelled from the spec: the stages whose content is an external
convention. `render` is the Template Renderer of section 4.2 (an undeclared
placeholder is an error); `parseDocument` reads the text form of a document
(section 6 leaves the serialization to the schema collaborator); `skeleton` is
the mode- and version-specific skeleton of section 4.3 (an unsupported version
is `UnsupportedVersionError`); `applyPatch` applies one fine-grained patch and
gives nothing when its target path is absent (section 4.4, stage 1); `merge`
is the strategic merge of a patch document into the current document (section
4.4, stage 2, and the open question of section 9). -/
structure Engine where
  render : String → ResolvedVariables → Option String
  parseDocument : String → Option ConfigDocument
  skeleton : GenerationMode → String → Option ConfigDocument
  applyPatch : ConfigPatches → ConfigDocument → Option ConfigDocument
  merge : ConfigDocument → ConfigDocument → ConfigDocument

/-- Modelled from the spec: the external collaborators of section 6. `resolve`
is the secret lookup `resolve(namespace, secretName, key)`, with `none` for
NotFound; the node identity collaborator supplies the node's own name and its
infrastructure's name, `none` for "not yet known"; `publish` returns the
reference of the published document, `none` when it cannot be reached in
time. -/
structure Collaborators where
  resolve : String → String → String → Option String
  machineName : Option String
  infrastructureName : Option String
  publish : ConfigDocument → Option String

/-! ### Stages -/

/-- Modelled from the spec: the generation mode of an intent is set when
`GenerateType` is not the empty string. -/
def modeSet (s : TalosConfigSpec) : Bool := decide (s.GenerateType ≠ "")

/-- Modelled from the spec: the raw document of an intent is set when `Data`
is not the empty string. -/
def dataSet (s : TalosConfigSpec) : Bool := decide (s.Data ≠ "")

/-- Modelled from the spec: "Exactly one of {mode, raw document} must be set;
both-set or neither-set is a InvalidIntentError" (section 4.3). A mode that is
set must also be one of the four modes of section 3. -/
def validateIntent (s : TalosConfigSpec) : Except SynthesisError Unit :=
  if modeSet s = dataSet s then .error .InvalidIntentError
  else if modeSet s && (parseMode s.GenerateType).isNone then .error .InvalidIntentError
  else .ok ()

/-- Modelled from the spec: resolution of one variable (section 4.1). A
variable with a secret reference is looked up, and a missing entry is a
`VariableResolutionError` with the variable's name; otherwise the inline
literal is the value. For the open question of section 9 the rule chosen is
that the reference wins and the literal is ignored. -/
def resolveVariable (lookup : String → String → String → Option String) (ns : String)
    (v : Variable) : Except SynthesisError (String × String) :=
  match v.ValueFrom with
  | some { SecretKeyRef := some ref } =>
    match lookup ns ref.Name ref.Key with
    | some value => .ok (v.Name, value)
    | none => .error (.VariableResolutionError v.Name)
  | _ => .ok (v.Name, v.Value)

/-- Modelled from the spec: the Variable Resolver of section 4.1, fail-fast in
declaration order: "if any declared variable fails to resolve, the whole
resolution fails". -/
def resolveVariables (lookup : String → String → String → Option String) (ns : String) :
    List Variable → Except SynthesisError ResolvedVariables
  | [] => .ok []
  | v :: vs =>
    match resolveVariable lookup ns v with
    | .error e => .error e
    | .ok binding =>
      match resolveVariables lookup ns vs with
      | .error e => .error e
      | .ok rest => .ok (binding :: rest)

/-- Modelled from the spec: the Base Config Generator of section 4.3. A raw
document is first passed through the renderer and then read as a document; the
mode `none` gives the empty document; the other modes give the skeleton of the
requested version. The Boolean tells whether the document is the raw one. -/
def generateBase (eng : Engine) (s : TalosConfigSpec) (vars : ResolvedVariables) :
    Except SynthesisError (Bool × ConfigDocument) :=
  if dataSet s then
    match eng.render s.Data vars with
    | none => .error .UnresolvedPlaceholderError
    | some text =>
      match eng.parseDocument text with
      | none => .error .InvalidDocumentError
      | some doc => .ok (true, doc)
  else
    match parseMode s.GenerateType with
    | none => .error .InvalidIntentError
    | some .none => .ok (false, ConfigDocument.empty)
    | some mode =>
      match eng.skeleton mode s.TalosVersion with
      | none => .error .UnsupportedVersionError
      | some doc => .ok (false, doc)

/-- Modelled from the spec: fine-grained patch application (section 4.4, stage
1): list order, each patch on the result of the earlier ones, halting on the
first failure with the patch index and path. -/
def applyPatches (eng : Engine) : Nat → List ConfigPatches → ConfigDocument →
    Except SynthesisError ConfigDocument
  | _, [], doc => .ok doc
  | i, p :: ps, doc =>
    match eng.applyPatch p doc with
    | none => .error (.PatchTargetNotFoundError i p.Path)
    | some doc' => applyPatches eng (i + 1) ps doc'

/-- Modelled from the spec: strategic merge application (section 4.4, stage
2): each patch document is rendered, read as a document (`InvalidPatchError`
with the patch index when it is not one) and merged, in declared order. -/
def applyMerges (eng : Engine) (vars : ResolvedVariables) : Nat → List String →
    ConfigDocument → Except SynthesisError ConfigDocument
  | _, [], doc => .ok doc
  | i, t :: ts, doc =>
    match eng.render t vars with
    | none => .error .UnresolvedPlaceholderError
    | some text =>
      match eng.parseDocument text with
      | none => .error (.InvalidPatchError i)
      | some patch => applyMerges eng vars (i + 1) ts (eng.merge doc patch)

/-- Modelled from the spec: the Patch Pipeline of section 4.4, fine-grained
patches first, then strategic merges. -/
def patchPipeline (eng : Engine) (s : TalosConfigSpec) (vars : ResolvedVariables)
    (doc : ConfigDocument) : Except SynthesisError ConfigDocument :=
  match applyPatches eng 0 s.ConfigPatches doc with
  | .error e => .error e
  | .ok doc' => applyMerges eng vars 0 s.StrategicPatches doc'

/-- Modelled from the spec: the Hostname Injector of section 4.5. "Policy
MachineName writes the node's own name; policy InfrastructureName writes the
infrastructure name; no other value is accepted"; a requested name that the
collaborator could not supply is the retryable `DependencyNotReadyError`. -/
def injectHostname (doc : ConfigDocument) (policy : HostnameSpec)
    (machineName infrastructureName : Option String) : Except SynthesisError ConfigDocument :=
  if policy.Source = HostnameSourceMachineName then
    match machineName with
    | some n => .ok (doc.setHostname n)
    | none => .error .DependencyNotReadyError
  else if policy.Source = HostnameSourceInfrastructureName then
    match infrastructureName with
    | some n => .ok (doc.setHostname n)
    | none => .error .DependencyNotReadyError
  else .error .InvalidHostnameSourceError

/-! ### Orchestrator -/

/-- Modelled from the spec: the stage identifier carried by a failure
(sections 3 and 4.6). -/
inductive Stage where
  | Intent
  | Variables
  | Base
  | Patch
  | Hostname
  | Publish
  deriving DecidableEq, Repr

/-- Modelled from the spec: the states of the state machine of section 4.6,
`Start → VariablesResolved → (BaseGenerated|RawAccepted) → Patched →
HostnameSet → Published`, and `Failed(stage, cause)`. -/
inductive State where
  | Start
  | VariablesResolved (vars : ResolvedVariables)
  | BaseGenerated (vars : ResolvedVariables) (doc : ConfigDocument)
  | RawAccepted (vars : ResolvedVariables) (doc : ConfigDocument)
  | Patched (doc : ConfigDocument)
  | HostnameSet (doc : ConfigDocument)
  | Published (doc : ConfigDocument) (reference : String)
  | Failed (stage : Stage) (cause : SynthesisError)

/-- Modelled from the spec: "Published and Failed are terminal". -/
def State.isTerminal : State → Bool
  | .Published _ _ => true
  | .Failed _ _ => true
  | _ => false

/-- Modelled from the spec: one transition of the orchestrator of section 4.6
for the intent `s` of an object in namespace `ns`. The intent is validated
before any stage runs; the first failing stage ends the run. -/
def step (eng : Engine) (env : Collaborators) (ns : String) (s : TalosConfigSpec) :
    State → State
  | .Start =>
    match validateIntent s with
    | .error e => .Failed .Intent e
    | .ok _ =>
      match resolveVariables env.resolve ns s.Variables with
      | .error e => .Failed .Variables e
      | .ok vars => .VariablesResolved vars
  | .VariablesResolved vars =>
    match generateBase eng s vars with
    | .error e => .Failed .Base e
    | .ok (true, doc) => .RawAccepted vars doc
    | .ok (false, doc) => .BaseGenerated vars doc
  | .BaseGenerated vars doc =>
    match patchPipeline eng s vars doc with
    | .error e => .Failed .Patch e
    | .ok doc' => .Patched doc'
  | .RawAccepted vars doc =>
    match patchPipeline eng s vars doc with
    | .error e => .Failed .Patch e
    | .ok doc' => .Patched doc'
  | .Patched doc =>
    match injectHostname doc s.Hostname env.machineName env.infrastructureName with
    | .error e => .Failed .Hostname e
    | .ok doc' => .HostnameSet doc'
  | .HostnameSet doc =>
    match env.publish doc with
    | none => .Failed .Publish .DependencyNotReadyError
    | some reference => .Published doc reference
  | .Published doc reference => .Published doc reference
  | .Failed stage cause => .Failed stage cause

/-- The state after `n` transitions from a state. -/
def runFrom (eng : Engine) (env : Collaborators) (ns : String) (s : TalosConfigSpec) :
    Nat → State → State
  | 0, st => st
  | n + 1, st => runFrom eng env ns s n (step eng env ns s st)

/-- Modelled from the spec: one synthesis run, the five transitions from
`Start` to a terminal state. -/
def run (eng : Engine) (env : Collaborators) (ns : String) (s : TalosConfigSpec) : State :=
  runFrom eng env ns s 5 .Start

/-- The states visited from a state, up to and including the first terminal
one, within `n` transitions. -/
def traceFrom (eng : Engine) (env : Collaborators) (ns : String) (s : TalosConfigSpec) :
    Nat → State → List State
  | 0, st => [st]
  | n + 1, st =>
    if st.isTerminal then [st] else st :: traceFrom eng env ns s n (step eng env ns s st)

/-- The states visited by one synthesis run. -/
def trace (eng : Engine) (env : Collaborators) (ns : String) (s : TalosConfigSpec) :
    List State :=
  traceFrom eng env ns s 5 .Start

/-- The hostname of the document carried by the states that follow hostname
injection is the given name. -/
def hostnameIs (n : String) : State → Prop
  | .HostnameSet doc => doc.hostname = some n
  | .Published doc _ => doc.hostname = some n
  | _ => True

/-- The number of transitions that a state is at most away from a terminal
state. -/
def State.remaining : State → Nat
  | .Start => 5
  | .VariablesResolved _ => 4
  | .BaseGenerated _ _ => 3
  | .RawAccepted _ _ => 3
  | .Patched _ => 2
  | .HostnameSet _ => 1
  | .Published _ _ => 0
  | .Failed _ _ => 0

/-! ### Example engine and collaborators -/

/-- An engine whose renderer is the identity, whose documents all read as the
empty document, with the empty skeleton for every version, patches that leave
the document as it is and a merge that keeps the current document. -/
def plainEngine : Engine :=
  { render := fun text _ => some text
    parseDocument := fun _ => some ConfigDocument.empty
    skeleton := fun _ _ => some ConfigDocument.empty
    applyPatch := fun _ doc => some doc
    merge := fun doc _ => doc }

/-- Collaborators with no secret, the node name `node-7`, no infrastructure
name yet, and a publisher that answers `bootstrap-data`. -/
def node7 : Collaborators :=
  { resolve := fun _ _ _ => none
    machineName := some "node-7"
    infrastructureName := none
    publish := fun _ => some "bootstrap-data" }

/-- An intent with both a generation mode and a raw document. -/
def bothSetIntent : TalosConfigSpec :=
  { TalosConfigSpec.zero with GenerateType := "init", Data := "machine: \x7b\x7d" }

/-- A worker intent whose hostname source is neither of the two declared
ones. -/
def nodeNameIntent : TalosConfigSpec :=
  { TalosConfigSpec.zero with GenerateType := "worker", Hostname := { Source := "NodeName" } }

/-- A document whose hostname was set by an earlier patch. -/
def patchedDocument : ConfigDocument :=
  { root := [("machine", .mapping [("type", .scalar "worker")]),
             ("hostname", .scalar "from-patch")] }

/-- A secret lookup that holds the single entry `creds/token`. -/
def credsLookup : String → String → String → Option String :=
  fun _ name key => if name = "creds" ∧ key = "token" then some "s3cr3t" else none

/-- A worker intent with the hostname policy `MachineName`. -/
def workerIntent : TalosConfigSpec :=
  { TalosConfigSpec.zero with
    GenerateType := "worker"
    Hostname := { Source := HostnameSourceMachineName } }

/-! ## Theorems: the accessors of TalosConfig -/

/-- C1: for every TalosConfig `c` and every list of conditions `cs`, the empty
list included, `GetConditions` after `SetConditions(cs)` returns exactly `cs`,
the same conditions in the same order. -/
theorem GetConditions_SetConditions (c : TalosConfig) (cs : List Condition) :
    (c.SetConditions cs).GetConditions.1 = cs ∧
    (c.SetConditions []).GetConditions.1 = [] :=
  ⟨rfl, rfl⟩

/-- C2: `GetConditions` returns exactly the list stored in
`c.Status.Conditions` and leaves every field of `c` unchanged; for the
zero-value TalosConfig it returns the empty list. -/
theorem GetConditions_reads_status (c : TalosConfig) :
    c.GetConditions.1 = c.Status.Conditions ∧
    c.GetConditions.2 = c ∧
    TalosConfig.zero.GetConditions.1 = [] :=
  ⟨rfl, rfl, rfl⟩

/-- C3: `HostnameSourceMachineName` is the string "MachineName",
`HostnameSourceInfrastructureName` is the string "InfrastructureName", the two
constants are distinct, and so no hostname policy names both sources. -/
theorem hostname_sources_distinct :
    HostnameSourceMachineName = "MachineName" ∧
    HostnameSourceInfrastructureName = "InfrastructureName" ∧
    HostnameSourceMachineName ≠ HostnameSourceInfrastructureName ∧
    ∀ h : HostnameSpec,
      ¬ (h.Source = HostnameSourceMachineName ∧ h.Source = HostnameSourceInfrastructureName) := by
  refine ⟨rfl, rfl, by decide, ?_⟩
  rintro h ⟨hm, hi⟩
  have hne : HostnameSourceMachineName ≠ HostnameSourceInfrastructureName := by decide
  exact hne (hm.symm.trans hi)

/-- C9: `SetConditions(cs)` changes only `Status.Conditions`: the type and
object metadata, the whole Spec, and the status fields Ready, DataSecretName,
TalosConfig, FailureReason, FailureMessage and ObservedGeneration are the same
after the call as before it. -/
theorem SetConditions_frame (c : TalosConfig) (cs : List Condition) :
    (c.SetConditions cs).TypeMeta = c.TypeMeta ∧
    (c.SetConditions cs).ObjectMeta = c.ObjectMeta ∧
    (c.SetConditions cs).Spec = c.Spec ∧
    (c.SetConditions cs).Status.Ready = c.Status.Ready ∧
    (c.SetConditions cs).Status.DataSecretName = c.Status.DataSecretName ∧
    (c.SetConditions cs).Status.TalosConfig = c.Status.TalosConfig ∧
    (c.SetConditions cs).Status.FailureReason = c.Status.FailureReason ∧
    (c.SetConditions cs).Status.FailureMessage = c.Status.FailureMessage ∧
    (c.SetConditions cs).Status.ObservedGeneration = c.Status.ObservedGeneration :=
  ⟨rfl, rfl, rfl, rfl, rfl, rfl, rfl, rfl, rfl⟩

/-! ## Theorems: variable names -/

/-- C8, as stated, fails: the specification `repeatedNameSpec` is a
TalosConfigSpec whose two variables are both named `region`. -/
theorem repeatedNameSpec_not_distinct : ¬ variableNamesDistinct repeatedNameSpec := by
  simp [variableNamesDistinct, repeatedNameSpec]

/-! ## Lemmas on the synthesis engine -/

theorem lookupKey_upsertKey (k : String) (v : Node) (l : List (String × Node)) :
    lookupKey k (upsertKey k v l) = some v := by
  induction l with
  | nil => simp [upsertKey, lookupKey]
  | cons e rest ih =>
    obtain ⟨k', v'⟩ := e
    by_cases h : k' = k
    · simp [upsertKey, lookupKey, h]
    · simp [upsertKey, lookupKey, h, ih]

theorem hostname_setHostname (d : ConfigDocument) (n : String) :
    (d.setHostname n).hostname = some n := by
  simp [ConfigDocument.setHostname, ConfigDocument.hostname, lookupKey_upsertKey]

theorem validateIntent_of_eq (s : TalosConfigSpec) (h : modeSet s = dataSet s) :
    validateIntent s = .error .InvalidIntentError := by
  simp [validateIntent, h]

theorem injectHostname_machineName (doc : ConfigDocument) (policy : HostnameSpec)
    (n : String) (infra : Option String)
    (hpolicy : policy.Source = HostnameSourceMachineName) :
    injectHostname doc policy (some n) infra = .ok (doc.setHostname n) := by
  simp [injectHostname, hpolicy]

theorem injectHostname_other (doc : ConfigDocument) (policy : HostnameSpec)
    (machine infra : Option String)
    (hm : policy.Source ≠ HostnameSourceMachineName)
    (hi : policy.Source ≠ HostnameSourceInfrastructureName) :
    injectHostname doc policy machine infra = .error .InvalidHostnameSourceError := by
  simp [injectHostname, hm, hi]

theorem step_terminal (eng : Engine) (env : Collaborators) (ns : String)
    (s : TalosConfigSpec) (st : State) (h : st.isTerminal = true) :
    step eng env ns s st = st := by
  cases st <;> simp [State.isTerminal] at h <;> rfl

theorem runFrom_terminal (eng : Engine) (env : Collaborators) (ns : String)
    (s : TalosConfigSpec) (n : Nat) (st : State) (h : st.isTerminal = true) :
    runFrom eng env ns s n st = st := by
  induction n with
  | zero => rfl
  | succ n ih => simp only [runFrom, step_terminal eng env ns s st h, ih]

theorem step_hostnameIs (eng : Engine) (env : Collaborators) (ns : String)
    (s : TalosConfigSpec) (n : String)
    (hpolicy : s.Hostname.Source = HostnameSourceMachineName)
    (hname : env.machineName = some n) (st : State) (h : hostnameIs n st) :
    hostnameIs n (step eng env ns s st) := by
  cases st with
  | Start => simp only [step]; split <;> [trivial; (split <;> trivial)]
  | VariablesResolved vars => simp only [step]; split <;> trivial
  | BaseGenerated vars doc => simp only [step]; split <;> trivial
  | RawAccepted vars doc => simp only [step]; split <;> trivial
  | Patched doc =>
    simp only [step, hname, injectHostname_machineName doc s.Hostname n _ hpolicy]
    exact hostname_setHostname doc n
  | HostnameSet doc => simp only [step]; split <;> [trivial; exact h]
  | Published doc reference => exact h
  | Failed stage cause => trivial

theorem runFrom_hostnameIs (eng : Engine) (env : Collaborators) (ns : String)
    (s : TalosConfigSpec) (n : String)
    (hpolicy : s.Hostname.Source = HostnameSourceMachineName)
    (hname : env.machineName = some n) (k : Nat) (st : State) (h : hostnameIs n st) :
    hostnameIs n (runFrom eng env ns s k st) := by
  induction k generalizing st with
  | zero => exact h
  | succ k ih => exact ih _ (step_hostnameIs eng env ns s n hpolicy hname st h)

theorem step_remaining (eng : Engine) (env : Collaborators) (ns : String)
    (s : TalosConfigSpec) (st : State) :
    (step eng env ns s st).remaining ≤ st.remaining - 1 := by
  cases st with
  | Start => simp only [step]; split <;> [simp [State.remaining]; (split <;> simp [State.remaining])]
  | VariablesResolved vars => simp only [step]; split <;> simp [State.remaining]
  | BaseGenerated vars doc => simp only [step]; split <;> simp [State.remaining]
  | RawAccepted vars doc => simp only [step]; split <;> simp [State.remaining]
  | Patched doc => simp only [step]; split <;> simp [State.remaining]
  | HostnameSet doc => simp only [step]; split <;> simp [State.remaining]
  | Published doc reference => simp [step, State.remaining]
  | Failed stage cause => simp [step, State.remaining]

theorem runFrom_remaining (eng : Engine) (env : Collaborators) (ns : String)
    (s : TalosConfigSpec) (n : Nat) (st : State) :
    (runFrom eng env ns s n st).remaining ≤ st.remaining - n := by
  induction n generalizing st with
  | zero => simp [runFrom]
  | succ n ih =>
    have h₁ := ih (step eng env ns s st)
    have h₂ := step_remaining eng env ns s st
    simp only [runFrom]
    omega

theorem isTerminal_of_remaining (st : State) (h : st.remaining = 0) :
    st.isTerminal = true := by
  cases st <;> simp [State.remaining] at h <;> rfl

/-- Every synthesis run ends in a terminal state, `Published` or `Failed`. -/
theorem run_isTerminal (eng : Engine) (env : Collaborators) (ns : String)
    (s : TalosConfigSpec) : (run eng env ns s).isTerminal = true := by
  apply isTerminal_of_remaining
  have := runFrom_remaining eng env ns s 5 .Start
  simp only [State.remaining] at this
  exact Nat.le_zero.1 this

/-! ## Theorems: the synthesis engine -/

/-- C4: for every intent whose hostname `Source` is neither "MachineName" nor
"InfrastructureName", hostname injection fails with
`InvalidHostnameSourceError` on every document and for every pair of names
supplied by the collaborator, it yields no document, and the orchestrator
leaves the state `Patched` for the failure at the hostname stage. -/
theorem unrecognized_source_rejected (eng : Engine) (env : Collaborators) (ns : String)
    (s : TalosConfigSpec) (doc : ConfigDocument) (machine infra : Option String)
    (hm : s.Hostname.Source ≠ "MachineName")
    (hi : s.Hostname.Source ≠ "InfrastructureName") :
    injectHostname doc s.Hostname machine infra = .error .InvalidHostnameSourceError ∧
    (∀ doc', injectHostname doc s.Hostname machine infra ≠ .ok doc') ∧
    step eng env ns s (.Patched doc) = .Failed .Hostname .InvalidHostnameSourceError := by
  have h := fun m i => injectHostname_other doc s.Hostname m i hm hi
  refine ⟨h machine infra, ?_, ?_⟩
  · intro doc' hok
    rw [h machine infra] at hok
    cases hok
  · simp only [step, h]

/-- C4 at the intent `nodeNameIntent`, whose source is "NodeName", with both
names known to the collaborator. -/
theorem unrecognized_source_rejected_witness :
    nodeNameIntent.Hostname.Source ≠ "MachineName" ∧
    nodeNameIntent.Hostname.Source ≠ "InfrastructureName" ∧
    injectHostname patchedDocument nodeNameIntent.Hostname (some "node-7") (some "vm-7") =
      .error .InvalidHostnameSourceError :=
  ⟨by decide, by decide,
   (unrecognized_source_rejected plainEngine node7 "default" nodeNameIntent patchedDocument
      (some "node-7") (some "vm-7") (by decide) (by decide)).1⟩

/-- C5: an intent with both the generation mode and the raw document set, or
with neither set, does not pass validation, and its run fails with
`InvalidIntentError` at the intent stage in the first transition: the only
states visited are `Start` and that failure, whatever the engine and the
collaborators are. -/
theorem invalid_intent_rejected (eng : Engine) (env : Collaborators) (ns : String)
    (s : TalosConfigSpec)
    (h : (s.GenerateType ≠ "" ∧ s.Data ≠ "") ∨ (s.GenerateType = "" ∧ s.Data = "")) :
    validateIntent s = .error .InvalidIntentError ∧
    run eng env ns s = .Failed .Intent .InvalidIntentError ∧
    trace eng env ns s = [.Start, .Failed .Intent .InvalidIntentError] := by
  have heq : modeSet s = dataSet s := by
    rcases h with ⟨hg, hd⟩ | ⟨hg, hd⟩ <;> simp [modeSet, dataSet, hg, hd]
  have hv := validateIntent_of_eq s heq
  have hstep : step eng env ns s .Start = .Failed .Intent .InvalidIntentError := by
    simp only [step, hv]
  refine ⟨hv, ?_, ?_⟩
  · show runFrom eng env ns s 4 (step eng env ns s .Start) = _
    rw [hstep]
    exact runFrom_terminal eng env ns s 4 (.Failed .Intent .InvalidIntentError) rfl
  · simp [trace, traceFrom, hstep, State.isTerminal]

/-- C5 at the intent `bothSetIntent`, which sets the mode `init` and a raw
document. -/
theorem invalid_intent_rejected_witness :
    ((bothSetIntent.GenerateType ≠ "" ∧ bothSetIntent.Data ≠ "") ∨
      (bothSetIntent.GenerateType = "" ∧ bothSetIntent.Data = "")) ∧
    run plainEngine node7 "default" bothSetIntent = .Failed .Intent .InvalidIntentError :=
  ⟨Or.inl ⟨by decide, by decide⟩,
   (invalid_intent_rejected plainEngine node7 "default" bothSetIntent
      (Or.inl ⟨by decide, by decide⟩)).2.1⟩

/-- The run of `workerIntent` with the collaborators `node7` publishes the
empty skeleton with the hostname `node-7`. -/
theorem run_workerIntent :
    run plainEngine node7 "default" workerIntent =
      .Published (ConfigDocument.empty.setHostname "node-7") "bootstrap-data" := by
  rfl

/-- C7: for every intent whose hostname policy is `MachineName` and every node
name `n` supplied by the collaborator, the hostname stage succeeds on every
patched document, whatever patches produced it, and sets its hostname to `n`;
and the document of every published run has the hostname `n`. -/
theorem machineName_hostname (eng : Engine) (env : Collaborators) (ns : String)
    (s : TalosConfigSpec) (n : String)
    (hpolicy : s.Hostname.Source = "MachineName")
    (hname : env.machineName = some n) :
    (∀ doc : ConfigDocument,
      step eng env ns s (.Patched doc) = .HostnameSet (doc.setHostname n) ∧
      (doc.setHostname n).hostname = some n) ∧
    (∀ (doc : ConfigDocument) (reference : String),
      run eng env ns s = .Published doc reference → doc.hostname = some n) := by
  constructor
  · intro doc
    refine ⟨?_, hostname_setHostname doc n⟩
    simp only [step, hname, injectHostname_machineName doc s.Hostname n _ hpolicy]
  · intro doc reference hrun
    have h := runFrom_hostnameIs eng env ns s n hpolicy hname 5 .Start trivial
    change hostnameIs n (run eng env ns s) at h
    rw [hrun] at h
    exact h

/-- C7 at the node name `node-7`: on `patchedDocument`, whose hostname an
earlier patch had set to `from-patch`, the hostname stage of `workerIntent`
gives a document with the hostname `node-7`. -/
theorem machineName_hostname_witness :
    workerIntent.Hostname.Source = "MachineName" ∧
    node7.machineName = some "node-7" ∧
    patchedDocument.hostname = some "from-patch" ∧
    step plainEngine node7 "default" workerIntent (.Patched patchedDocument) =
      .HostnameSet (patchedDocument.setHostname "node-7") ∧
    (patchedDocument.setHostname "node-7").hostname = some "node-7" :=
  ⟨rfl, rfl, rfl,
   (machineName_hostname plainEngine node7 "default" workerIntent "node-7" rfl rfl).1
     patchedDocument⟩

/-! ## Theorems: the resolved variables of an intent with distinct names -/

theorem resolveVariable_name (lookup : String → String → String → Option String)
    (ns : String) (v : Variable) (b : String × String)
    (h : resolveVariable lookup ns v = .ok b) : b.1 = v.Name := by
  unfold resolveVariable at h
  split at h
  · split at h
    · cases h; rfl
    · cases h
  · cases h; rfl

theorem resolveVariables_cons_ok (lookup : String → String → String → Option String)
    (ns : String) (v : Variable) (vs : List Variable) (vars : ResolvedVariables)
    (h : resolveVariables lookup ns (v :: vs) = .ok vars) :
    ∃ b rest, resolveVariable lookup ns v = .ok b ∧
      resolveVariables lookup ns vs = .ok rest ∧ vars = b :: rest := by
  simp only [resolveVariables] at h
  split at h
  · cases h
  · rename_i b hb
    split at h
    · cases h
    · rename_i rest hrest
      cases h
      exact ⟨b, rest, hb, hrest, rfl⟩

/-- The resolver keeps the declared names, one binding per declaration, in
declaration order. -/
theorem resolveVariables_names (lookup : String → String → String → Option String)
    (ns : String) (vs : List Variable) (vars : ResolvedVariables)
    (h : resolveVariables lookup ns vs = .ok vars) :
    vars.map Prod.fst = vs.map Variable.Name := by
  induction vs generalizing vars with
  | nil =>
    simp only [resolveVariables] at h
    cases h
    rfl
  | cons v vs ih =>
    obtain ⟨b, rest, hb, hrest, rfl⟩ := resolveVariables_cons_ok lookup ns v vs vars h
    simp only [List.map_cons, ih rest hrest, resolveVariable_name lookup ns v b hb]

/-- Every declaration has its own binding in the resolved variables. -/
theorem resolveVariables_mem (lookup : String → String → String → Option String)
    (ns : String) (vs : List Variable) (vars : ResolvedVariables)
    (h : resolveVariables lookup ns vs = .ok vars) (v : Variable) (hv : v ∈ vs) :
    ∃ value, resolveVariable lookup ns v = .ok (v.Name, value) ∧ (v.Name, value) ∈ vars := by
  induction vs generalizing vars with
  | nil => cases hv
  | cons w ws ih =>
    obtain ⟨b, rest, hb, hrest, rfl⟩ := resolveVariables_cons_ok lookup ns w ws vars h
    rcases List.mem_cons.1 hv with rfl | hmem
    · have hname := resolveVariable_name lookup ns v b hb
      obtain ⟨k, value⟩ := b
      simp only at hname
      subst hname
      exact ⟨value, hb, List.mem_cons_self _ _⟩
    · obtain ⟨value, hres, hin⟩ := ih rest hrest hmem
      exact ⟨value, hres, List.mem_cons_of_mem _ hin⟩

/-- In a list of bindings with pairwise distinct names, a name is bound to one
value only. -/
theorem binding_unique (vars : ResolvedVariables) (hnodup : (vars.map Prod.fst).Nodup)
    (k x y : String) (hx : (k, x) ∈ vars) (hy : (k, y) ∈ vars) : x = y := by
  induction vars with
  | nil => cases hx
  | cons b rest ih =>
    rw [List.map_cons, List.nodup_cons] at hnodup
    rcases List.mem_cons.1 hx with hxb | hxr <;> rcases List.mem_cons.1 hy with hyb | hyr
    · rw [← hxb] at hyb
      exact (Prod.mk.inj hyb).2.symm
    · exact absurd (List.mem_map.2 ⟨(k, y), hyr, by rw [← hxb]⟩) hnodup.1
    · exact absurd (List.mem_map.2 ⟨(k, x), hxr, by rw [← hyb]⟩) hnodup.1
    · exact ih hnodup.2 hxr hyr

/-- C8, amended: a TalosConfigSpec may declare the same variable name more than
once, so distinct names are a precondition on the intent; for every intent
whose declared names are pairwise distinct and whose variables resolve, the
resolved variables are a mapping: one binding per declaration under the
declared name and in declaration order, with pairwise distinct names and each
declared name bound to the value of its own declaration and to no other
value. -/
theorem resolved_variables_mapping (lookup : String → String → String → Option String)
    (ns : String) (s : TalosConfigSpec) (vars : ResolvedVariables)
    (hdistinct : variableNamesDistinct s)
    (hresolved : resolveVariables lookup ns s.Variables = .ok vars) :
    vars.map Prod.fst = s.Variables.map Variable.Name ∧
    vars.Pairwise (fun a b => a.1 ≠ b.1) ∧
    ∀ v ∈ s.Variables, ∃ value,
      resolveVariable lookup ns v = .ok (v.Name, value) ∧
      ∀ x, (v.Name, x) ∈ vars ↔ x = value := by
  have hnames := resolveVariables_names lookup ns s.Variables vars hresolved
  have hnodup : (vars.map Prod.fst).Nodup := by
    rw [hnames]
    exact List.pairwise_map.2 hdistinct
  refine ⟨hnames, List.pairwise_map.1 hnodup, ?_⟩
  intro v hv
  obtain ⟨value, hres, hin⟩ := resolveVariables_mem lookup ns s.Variables vars hresolved v hv
  refine ⟨value, hres, fun x => ⟨fun hx => ?_, fun hx => hx ▸ hin⟩⟩
  exact binding_unique vars hnodup v.Name x value hx hin

/-- The amended C8 at `regionTokenSpec` with the lookup `credsLookup`: the
names `region` and `token` are distinct, the variables resolve to the literal
`eu` and the secret entry `s3cr3t`, and the two resolved names are distinct. -/
theorem resolved_variables_mapping_witness :
    variableNamesDistinct regionTokenSpec ∧
    resolveVariables credsLookup "default" regionTokenSpec.Variables =
      .ok [("region", "eu"), ("token", "s3cr3t")] ∧
    [("region", "eu"), ("token", "s3cr3t")].Pairwise
      (fun (a b : String × String) => a.1 ≠ b.1) :=
  ⟨by simp [variableNamesDistinct, regionTokenSpec], rfl,
   (resolved_variables_mapping credsLookup "default" regionTokenSpec
      [("region", "eu"), ("token", "s3cr3t")]
      (by simp [variableNamesDistinct, regionTokenSpec]) rfl).2.1⟩

/-- With the repeated name of `repeatedNameSpec` the resolved variables are not
a mapping: `region` is bound to `eu` and to `us`. -/
theorem repeatedNameSpec_resolved :
    resolveVariables credsLookup "default" repeatedNameSpec.Variables =
      .ok [("region", "eu"), ("region", "us")] := by
  rfl

end v1alpha3
